import Mathlib

/-!
Verification of the APRSwx core pipeline: the APRS packet decoder
(backend/packets/management/commands/aprs_listener.py, class APRSParser),
the APRS-IS connection service
(backend/websockets/aprs_service.py, class APRSISConnectionService),
and the packet-processing stage (APRSISConnectionService._process_packet).

The Python code is shallowly embedded: strings are lists of characters,
Python float values are a sum of exact rationals (ignoring binary
rounding), the two infinities and nan, with float() itself embedded as
the grammar CPython accepts on ASCII text, dictionaries with optional
keys are structures of Option fields, and the I/O effects of the
processing stage are recorded in a structure of flags.  Exceptions
caught by the source are modelled by Option results; the Lean functions
are total, which models the source guarantee that no exception
propagates.
-/

/-- The left brace character, written by code point to keep string
literals free of brace characters. -/
def lbrace : Char := Char.ofNat 123

/-- The right brace character. -/
def rbrace : Char := Char.ofNat 125

/-- Python slice s[a:b] on a list of characters (clamping, as in Python). -/
def pySlice (l : List Char) (a b : Nat) : List Char := (l.take b).drop a

/-- Python str.split(sep): splits on every occurrence of sep; the result
always has at least one element, and an empty input gives [[]], matching
Python where the empty string splits to a list holding one empty string. -/
def pySplit (sep : Char) : List Char → List (List Char)
  | [] => [[]]
  | c :: cs =>
    if c = sep then [] :: pySplit sep cs
    else
      match pySplit sep cs with
      | [] => [[c]]
      | h :: t => (c :: h) :: t

/-- Python str.split(sep, 1) when it yields two pieces; none models the
ValueError raised by unpacking a one-element split result. -/
def pySplitOnce (sep : Char) (l : List Char) : Option (List Char × List Char) :=
  if l.contains sep then
    some (l.takeWhile (fun c => c ≠ sep), (l.dropWhile (fun c => c ≠ sep)).drop 1)
  else none

/-- Python str.strip(): drop leading and trailing whitespace. -/
def pyStrip (l : List Char) : List Char :=
  ((l.dropWhile Char.isWhitespace).reverse.dropWhile Char.isWhitespace).reverse

/-- Python str.isdigit(): nonempty and all characters are digits. -/
def pyIsDigit (l : List Char) : Bool := !l.isEmpty && l.all Char.isDigit

/-- Numeric value of a digit string. -/
def digitsToNat (l : List Char) : Nat :=
  l.foldl (fun a c => 10 * a + (c.toNat - 48)) 0

/-- A natural number as a rational, built directly from the constructor
so that proofs by kernel evaluation can reduce it. -/
def natQ (n : Nat) : ℚ := ⟨Int.ofNat n, 1, by decide, Nat.coprime_one_right _⟩

/-- A Python float value as the decoder observes it: a finite value
(kept as an exact rational, the established idealization that ignores
binary rounding), one of the two infinities, or nan. -/
inductive PyFloat
  | finite (q : ℚ)
  | pinf
  | ninf
  | nan
deriving DecidableEq

/-- IEEE negation, used for the hemisphere sign flips. -/
def PyFloat.neg : PyFloat → PyFloat
  | .finite q => .finite (-q)
  | .pinf => .ninf
  | .ninf => .pinf
  | .nan => .nan

/-- IEEE addition restricted to what the decoder needs: finite values
add exactly, an infinity absorbs finite values, opposite infinities give
nan, and nan propagates. -/
def PyFloat.add : PyFloat → PyFloat → PyFloat
  | .nan, _ => .nan
  | _, .nan => .nan
  | .finite a, .finite b => .finite (a + b)
  | .finite _, .pinf => .pinf
  | .finite _, .ninf => .ninf
  | .pinf, .finite _ => .pinf
  | .ninf, .finite _ => .ninf
  | .pinf, .pinf => .pinf
  | .ninf, .ninf => .ninf
  | .pinf, .ninf => .nan
  | .ninf, .pinf => .nan

/-- IEEE division by a positive integer constant (the source divides
minutes by 60.0): exact on finite values, fixed on infinities and nan. -/
def PyFloat.divN (x : PyFloat) (n : Nat) : PyFloat :=
  match x with
  | .finite q => .finite (q / natQ n)
  | .pinf => .pinf
  | .ninf => .ninf
  | .nan => .nan

/-- The whitespace characters Python float() strips from both ends of an
ASCII string: tab, newline, vertical tab, form feed, carriage return and
space (checked against CPython: float of a string padded with any of
these succeeds). -/
def pyIsFloatSpace (c : Char) : Bool := c.toNat = 32 || (9 ≤ c.toNat && c.toNat ≤ 13)

/-- Trailing part of a Python digitpart after its first digit: digits,
with each underscore standing strictly between two digits (float of
double or edge underscores raises in CPython). -/
def digitTail : List Char → Bool
  | [] => true
  | '_' :: rest =>
    match rest with
    | [] => false
    | d :: r => d.isDigit && digitTail r
  | d :: r => d.isDigit && digitTail r

/-- A Python digitpart: nonempty, starts with a digit, underscores only
between digits. -/
def digitpartOk (l : List Char) : Bool :=
  match l with
  | [] => false
  | d :: r => d.isDigit && digitTail r

/-- Numeric value of a digitpart, underscores removed. -/
def digitpartVal (l : List Char) : Nat := digitsToNat (l.filter Char.isDigit)

/-- The mantissa grammar of Python float(): either a plain digitpart, or
an integer part and a fraction part around a single dot, each possibly
empty but not both, each a valid digitpart when present.  Returns the
exact value. -/
def parseMantissa (l : List Char) : Option ℚ :=
  let intPart := l.takeWhile (fun c => c ≠ '.')
  let rest := l.dropWhile (fun c => c ≠ '.')
  match rest with
  | [] => if digitpartOk intPart then some (natQ (digitpartVal intPart)) else none
  | _ :: frac =>
    if frac.contains '.' then none
    else if (intPart.isEmpty || digitpartOk intPart) && (frac.isEmpty || digitpartOk frac)
        && !(intPart.isEmpty && frac.isEmpty) then
      some (natQ (digitpartVal intPart)
        + natQ (digitpartVal frac) / natQ (10 ^ (frac.filter Char.isDigit).length))
    else none

/-- The exponent clause after the e: an optional sign and a digitpart;
returns the sign and magnitude. -/
def parseExp (l : List Char) : Option (Bool × Nat) :=
  match l with
  | '+' :: r => if digitpartOk r then some (false, digitpartVal r) else none
  | '-' :: r => if digitpartOk r then some (true, digitpartVal r) else none
  | r => if digitpartOk r then some (false, digitpartVal r) else none

/-- Python float() on the text after the optional sign: the literals
inf, infinity and nan case-insensitively, or a mantissa with an optional
exponent split at the first e or E. -/
def pyFloatUnsigned (body : List Char) : Option PyFloat :=
  let low := body.map Char.toLower
  if low = "inf".toList || low = "infinity".toList then some PyFloat.pinf
  else if low = "nan".toList then some PyFloat.nan
  else
    let mant := body.takeWhile (fun c => c ≠ 'e' ∧ c ≠ 'E')
    let rest := body.dropWhile (fun c => c ≠ 'e' ∧ c ≠ 'E')
    match rest with
    | [] =>
      match parseMantissa mant with
      | some v => some (PyFloat.finite v)
      | none => none
    | _ :: expPart =>
      match parseMantissa mant, parseExp expPart with
      | some v, some (eneg, e) =>
        some (PyFloat.finite (if eneg then v / natQ (10 ^ e) else v * natQ (10 ^ e)))
      | _, _ => none

/-- The smallest magnitude at which round-to-nearest-even double
conversion overflows to infinity: 2^1024 - 2^970.  CPython returns an
infinity, not an error, for decimal text beyond it (float of 1e400 is
inf). -/
def doubleOverflowBound : ℚ := natQ (2 ^ 1024 - 2 ^ 970)

/-- Python float(s) for strings of ASCII characters, checked against
CPython: strip float whitespace from both ends, take an optional sign,
then the unsigned grammar; a finite value at or beyond the double
overflow threshold becomes the signed infinity; none models exactly the
ValueError raised on text that does not match the grammar.  Python also
accepts non-ASCII decimal digits and non-ASCII spaces; strings holding
those are outside this model, and theorems that rely on the none case
therefore carry an ASCII hypothesis. -/
def pyFloat (s : List Char) : Option PyFloat :=
  let core := ((s.dropWhile pyIsFloatSpace).reverse.dropWhile pyIsFloatSpace).reverse
  let signedBody : Option (Bool × List Char) :=
    match core with
    | [] => none
    | '-' :: r => some (true, r)
    | '+' :: r => some (false, r)
    | l => some (false, l)
  match signedBody with
  | none => none
  | some (neg, body) =>
    match pyFloatUnsigned body with
    | none => none
    | some (PyFloat.finite q) =>
      if doubleOverflowBound ≤ |q| then some (if neg then PyFloat.ninf else PyFloat.pinf)
      else some (PyFloat.finite (if neg then -q else q))
    | some PyFloat.pinf => some (if neg then PyFloat.ninf else PyFloat.pinf)
    | some v => some v

/-- Substring test: does the needle occur contiguously in the haystack;
models the Python expression needle in haystack. -/
def containsSub (needle : List Char) : List Char → Bool
  | [] => needle.isEmpty
  | c :: cs => needle.isPrefixOf (c :: cs) || containsSub needle cs

namespace APRSParser

/-- The fields of the dictionary returned by APRSParser._parse_position
when parsing succeeds: the dictionary is either empty or carries all of
latitude, longitude, symbol_table and symbol_code, plus an optional
comment. -/
structure PosFields where
  latitude : PyFloat
  longitude : PyFloat
  symbol_table : Char
  symbol_code : Char
  comment : Option (List Char)
deriving DecidableEq

/-- Embedding of APRSParser._parse_position.  A result of none models the
empty dictionary the source returns for short data or on a caught
exception from float(). -/
def parse_position (info : List Char) : Option PosFields :=
  let data := if info.head? = some '!' ∨ info.head? = some '=' then info.drop 1 else info
  if data.length < 19 then none
  else
    let lat_str := pySlice data 0 8
    let lon_str := pySlice data 9 18
    match pyFloat (lat_str.take 2), pyFloat (pySlice lat_str 2 7),
          pyFloat (lon_str.take 3), pyFloat (pySlice lon_str 3 8) with
    | some latDeg, some latMin, some lonDeg, some lonMin =>
      let lat0 := latDeg.add (latMin.divN 60)
      let lat := if lat_str.getD 7 ' ' = 'S' then lat0.neg else lat0
      let lon0 := lonDeg.add (lonMin.divN 60)
      let lon := if lon_str.getD 8 ' ' = 'W' then lon0.neg else lon0
      some { latitude := lat
             longitude := lon
             symbol_table := data.getD 8 ' '
             symbol_code := if 18 < data.length then data.getD 18 ' ' else '/'
             comment := if 19 < data.length then some (data.drop 19) else none }
    | _, _, _, _ => none

/-- The dictionary returned by APRSParser._parse_weather: every key is
optional and keys are added independently. -/
structure WeatherData where
  wind_direction : Option Nat
  wind_speed : Option Nat
  wind_gust : Option Nat
  temperature : Option Nat
  rainfall_1h : Option ℚ
  pressure : Option ℚ
  humidity : Option Nat
deriving DecidableEq

/-- The empty weather dictionary. -/
def emptyWeatherData : WeatherData := ⟨none, none, none, none, none, none, none⟩

/-- Embedding of APRSParser._parse_weather: strip the marker, split the
remainder on the slash character, and pick fields by position, skipping
any that is missing or not all digits. -/
def parse_weather (info : List Char) : WeatherData :=
  let data := info.drop 1
  let parts := pySplit '/' data
  if 3 ≤ parts.length then
    let p1 := parts.getD 1 []
    let p2 := parts.getD 2 []
    let wd := if pyIsDigit p1 then some (digitsToNat p1) else none
    let wsg :=
      if p2.contains 'g' then
        let sg := pySplit 'g' p2
        let s0 := sg.getD 0 []
        let s1 := sg.getD 1 []
        ((if pyIsDigit s0 then some (digitsToNat s0) else none),
         (if pyIsDigit s1 then some (digitsToNat s1) else none))
      else (none, none)
    let t :=
      if 4 ≤ parts.length then
        (if pyIsDigit (parts.getD 3 []) then some (digitsToNat (parts.getD 3 [])) else none)
      else none
    let r :=
      if 5 ≤ parts.length then
        (if pyIsDigit (parts.getD 4 []) then some (natQ (digitsToNat (parts.getD 4 [])) / natQ 100)
         else none)
      else none
    let pr :=
      if 6 ≤ parts.length then
        (if pyIsDigit (parts.getD 5 []) then some (natQ (digitsToNat (parts.getD 5 [])) / natQ 10)
         else none)
      else none
    let h :=
      if 7 ≤ parts.length then
        (if pyIsDigit (parts.getD 6 []) then some (digitsToNat (parts.getD 6 [])) else none)
      else none
    ⟨wd, wsg.1, wsg.2, t, r, pr, h⟩
  else emptyWeatherData

/-- The dictionary returned by APRSParser._parse_message when the data
holds the addressee separator; message_number is the value None when no
closing brace follows the opening one. -/
structure MessageData where
  addressee : List Char
  message : List Char
  message_number : Option (List Char)
  is_ack : Bool
deriving DecidableEq

/-- Embedding of APRSParser._parse_message.  none models the empty
dictionary returned when the data after the marker has no colon. -/
def parse_message (info : List Char) : Option MessageData :=
  let data := info.drop 1
  if data.contains ':' = false then none
  else
    let addressee := data.takeWhile (fun c => c ≠ ':')
    let message_part := (data.dropWhile (fun c => c ≠ ':')).drop 1
    if message_part.contains lbrace then
      let message_text := message_part.takeWhile (fun c => c ≠ lbrace)
      let msg_no_part := (message_part.dropWhile (fun c => c ≠ lbrace)).drop 1
      let message_no :=
        if msg_no_part.contains rbrace then some (msg_no_part.takeWhile (fun c => c ≠ rbrace))
        else none
      some ⟨pyStrip addressee, pyStrip message_text, message_no,
            (pyStrip message_text).map Char.toLower == "ack".toList⟩
    else
      some ⟨pyStrip addressee, pyStrip message_part, none,
            (pyStrip message_part).map Char.toLower == "ack".toList⟩

/-- The packet_type tag assigned by APRSParser.parse_packet. -/
inductive PacketType
  | position
  | weather
  | status
  | message
  | other
deriving DecidableEq

/-- The dictionary built by APRSParser.parse_packet for a line that
passes the framing checks: the common keys plus the variant payload
merged in by dict.update. -/
structure ParsedPacket where
  source_callsign : List Char
  info : List Char
  packet_type : PacketType
  posFields : Option PosFields
  weather : WeatherData
  msg : Option MessageData
  status : Option (List Char)
deriving DecidableEq

/-- The result of APRSParser.parse_packet: either a dictionary with an
error key (the diagnostic string) or the parsed dictionary. -/
inductive ParseResult
  | err (msg : List Char)
  | ok (p : ParsedPacket)
deriving DecidableEq

/-- The diagnostic text CPython produces for unpacking a one-element
split result, caught and returned by the source as the error value. -/
def unpackDiag : List Char :=
  "not enough values to unpack (expected 2, got 1)".toList

/-- Embedding of APRSParser.parse_packet: reject lines without the
greater-than header separator, split once on the first colon (a missing
colon raises a ValueError that the source catches and converts to an
error dictionary), then dispatch on the first character of the info
field. -/
def parse_packet (raw : List Char) : ParseResult :=
  if raw.contains '>' = false then .err ("Invalid packet format".toList)
  else
    match pySplitOnce ':' raw with
    | none => .err unpackDiag
    | some (header, info) =>
      let source := header.takeWhile (fun c => c ≠ '>')
      if info.head? = some '!' ∨ info.head? = some '=' then
        .ok ⟨source, info, .position, parse_position info, emptyWeatherData, none, none⟩
      else if info.head? = some '_' then
        .ok ⟨source, info, .weather, none, parse_weather info, none, none⟩
      else if info.head? = some '>' then
        .ok ⟨source, info, .status, none, emptyWeatherData, none, some (info.drop 1)⟩
      else if info.head? = some ':' then
        .ok ⟨source, info, .message, none, emptyWeatherData, parse_message info, none⟩
      else
        .ok ⟨source, info, .other, none, emptyWeatherData, none, none⟩

end APRSParser

namespace APRSISConnectionService

/-- The mutable attributes of APRSISConnectionService, together with a
count of worker threads that have been spawned by Thread start and are
alive, and whether a socket object is open.  The __init__ method sets
connection_thread, current_settings and socket to None and both flags to
False. -/
structure Service where
  live_workers : Nat
  is_connected : Bool
  should_disconnect : Bool
  has_settings : Bool
  socket_open : Bool
deriving DecidableEq

/-- The state right after __init__. -/
def initService : Service := ⟨0, false, false, false, false⟩

/-- Embedding of APRSISConnectionService.connect: when is_connected is
set the call returns at once; otherwise it stores the settings, clears
should_disconnect, and starts one background worker thread. -/
def connect (s : Service) : Service :=
  if s.is_connected then s
  else { s with has_settings := true, should_disconnect := false,
                live_workers := s.live_workers + 1 }

/-- Embedding of APRSISConnectionService.disconnect: sets the stop flag,
closes the socket when one exists (closing is wrapped in a bare except,
so closing an absent socket is also harmless), joins the worker with a
bounded wait, then clears is_connected and the stored settings. -/
def disconnect (s : Service) : Service :=
  { s with should_disconnect := true, socket_open := false,
           is_connected := false, has_settings := false }

/-- The session status as the specification describes it: Connected once
the worker has set is_connected after a successful login, Connecting
while a spawned worker is alive but is_connected is still clear, and
Disconnected otherwise. -/
inductive SessionStatus
  | Disconnected
  | Connecting
  | Connected
deriving DecidableEq

/-- Status observed on a service state. -/
def sessionStatus (s : Service) : SessionStatus :=
  if s.is_connected then .Connected
  else if 0 < s.live_workers then .Connecting
  else .Disconnected

/-- The Python value stored under the passcode key of the user settings:
an int, a str, or None. -/
inductive PassVal
  | intV (n : Int)
  | strV (s : List Char)
  | noneV
deriving DecidableEq

/-- The user settings fields read by the connection worker; a callsign
value of none models Python None, and some [] models the empty string
(both are falsy). -/
structure UserSettings where
  callsign : Option (List Char)
  passcode : PassVal
deriving DecidableEq

/-- Embedding of the credential guard at the top of
APRSISConnectionService._connection_worker: reject when the callsign is
falsy, upper-cases to NOCALL, or the passcode is not an int greater than
zero. -/
def credentialsInvalid (u : UserSettings) : Bool :=
  match u.callsign with
  | none => true
  | some cs =>
    cs.isEmpty || (cs.map Char.toUpper == "NOCALL".toList) ||
      (match u.passcode with
       | .intV n => decide (n ≤ 0)
       | _ => true)

/-- One result of a blocking recv during the login handshake: a decoded
text chunk, a socket timeout, or another exception while reading. -/
inductive RecvEvent
  | line (s : List Char)
  | timeout
  | excp
deriving DecidableEq

/-- Number of initial response reads attempted by the login handshake,
from the range(5) loop in _connection_worker. -/
def HANDSHAKE_MAX_READS : Nat := 5

/-- Per-read socket timeout in seconds during the login handshake, from
the settimeout(3) call in _connection_worker. -/
def HANDSHAKE_TIMEOUT_SECONDS : Nat := 3

/-- The response-reading loop of _connection_worker: read up to the fuel
many chunks; a chunk whose lowercase text holds verified, unverified,
logresp or the hash-logresp marker means success and stops the loop; a
chunk that strips to nothing stops the loop without success, as does a
timeout or any other read error.  Every received chunk is first appended
(stripped) to the response list. -/
def handshakeLoop : Nat → List RecvEvent → List (List Char) → Bool × List (List Char)
  | 0, _, acc => (false, acc)
  | _ + 1, [], acc => (false, acc)
  | fuel + 1, e :: rest, acc =>
    match e with
    | .timeout => (false, acc)
    | .excp => (false, acc)
    | .line s =>
      let acc := acc ++ [pyStrip s]
      let low := s.map Char.toLower
      if containsSub ("verified".toList) low || containsSub ("unverified".toList) low then
        (true, acc)
      else if containsSub ("logresp".toList) low || containsSub ("# logresp".toList) low then
        (true, acc)
      else if pyStrip s = [] then (false, acc)
      else handshakeLoop fuel rest acc

/-- The overall handshake outcome: run the bounded read loop, then, as
the source does, assume the login worked when no explicit marker matched
but some response chunk was received. -/
def handshakeResult (events : List RecvEvent) : Bool × List (List Char) :=
  let r := handshakeLoop HANDSHAKE_MAX_READS events []
  if !r.1 && !r.2.isEmpty then (true, r.2) else r

/-- A connection-status event broadcast to the aprs_packets group by
_broadcast_connection_status. -/
structure StatusEvent where
  connected : Bool
  error : Option (List Char)
deriving DecidableEq

/-- The error text broadcast when the credential guard rejects. -/
def invalidCredsMsg : List Char :=
  "Invalid callsign or passcode. Please set your real callsign and passcode in User Settings.".toList

/-- The observable outcome of one run of _connection_worker: whether a
socket was ever created, whether the login was judged successful,
whether is_connected was ever set (the session reached Connected), and
the connection-status events broadcast (ignoring those of the later
packet loop). -/
structure WorkerOutcome where
  socket_created : Bool
  login_successful : Bool
  reached_connected : Bool
  statuses : List StatusEvent
deriving DecidableEq

/-- Embedding of _connection_worker up to the start of the packet loop.
socketConnectOk says whether the socket connect call succeeds;
events is the sequence of recv results during the handshake. -/
def connection_worker (u : UserSettings) (socketConnectOk : Bool)
    (events : List RecvEvent) : WorkerOutcome :=
  if credentialsInvalid u then
    { socket_created := false, login_successful := false,
      reached_connected := false, statuses := [⟨false, some invalidCredsMsg⟩] }
  else if !socketConnectOk then
    { socket_created := true, login_successful := false,
      reached_connected := false, statuses := [⟨false, some ("connection error".toList)⟩] }
  else
    let r := handshakeResult events
    if r.1 then
      { socket_created := true, login_successful := true,
        reached_connected := true, statuses := [⟨true, none⟩] }
    else
      { socket_created := true, login_successful := false,
        reached_connected := false, statuses := [⟨false, some ("Login failed".toList)⟩] }

end APRSISConnectionService

/-- The effect flags of one call to APRSISConnectionService._process_packet
(the management command Command.process_packet behaves the same way on
these effects): a warning is logged and nothing else happens when the
parse produced an error dictionary; otherwise the packet row is created,
a packet_update is broadcast when a channel layer exists, and the
station upsert plus station_update broadcast happen only for a position
packet whose parsed dictionary holds latitude and longitude keys. -/
structure ProcessEffects where
  parse_warning : Bool
  packet_appended : Bool
  packet_update_sent : Bool
  station_upserted : Bool
  station_update_sent : Bool
deriving DecidableEq

/-- Embedding of APRSISConnectionService._process_packet as its effects. -/
def process_packet (channelLayerAvailable : Bool) (raw : List Char) : ProcessEffects :=
  match APRSParser.parse_packet raw with
  | .err _ => ⟨true, false, false, false, false⟩
  | .ok p =>
    let posOk := p.packet_type == APRSParser.PacketType.position && p.posFields.isSome
    ⟨false, true, channelLayerAvailable, posOk, posOk && channelLayerAvailable⟩

open APRSParser APRSISConnectionService

/-- C1: every raw line that lacks the greater-than separator or lacks the
colon that introduces the info field makes parse_packet return the error
dictionary with a nonempty diagnostic; the function is total, so no
exception propagates. -/
theorem aprs_c1_unknown_on_bad_framing (raw : List Char)
    (h : raw.contains '>' = false ∨ raw.contains ':' = false) :
    ∃ msg, parse_packet raw = ParseResult.err msg ∧ msg ≠ [] := by
  rcases h with h | h
  · refine ⟨"Invalid packet format".toList, ?_, by decide⟩
    unfold parse_packet
    rw [h]
    rfl
  · have hsplit : pySplitOnce ':' raw = none := by
      unfold pySplitOnce
      rw [h]
      rfl
    cases hgt : raw.contains '>' with
    | false =>
      refine ⟨"Invalid packet format".toList, ?_, by decide⟩
      unfold parse_packet
      rw [hgt]
      rfl
    | true =>
      refine ⟨unpackDiag, ?_, by decide⟩
      unfold parse_packet
      rw [hgt, hsplit]
      rfl

/-- C1 witness: a concrete line without either separator hits the error
path. -/
theorem aprs_c1_witness :
    ("hello world".toList.contains '>' = false ∨ "hello world".toList.contains ':' = false)
    ∧ ∃ msg, parse_packet ("hello world".toList) = ParseResult.err msg ∧ msg ≠ [] :=
  ⟨Or.inl (by decide), aprs_c1_unknown_on_bad_framing _ (Or.inl (by decide))⟩

/-- C3 counterexample: after one connect call from the initial state the
session is Connecting (a worker is alive, is_connected is still clear),
yet a second connect call is not a no-op: it spawns a second worker,
because the guard in the source tests only is_connected. -/
theorem aprs_c3_counterexample :
    sessionStatus (connect initService) ≠ SessionStatus.Disconnected
    ∧ connect (connect initService) ≠ connect initService
    ∧ (connect initService).live_workers = 1
    ∧ (connect (connect initService)).live_workers = 2 := by decide

/-- C3 amended: a second connect call is a no-op exactly when the first
session has already reached Connected, that is when the is_connected
flag set after a successful login is true; while the session is merely
Connecting the guard does not apply. -/
theorem aprs_c3_amended_guard (s : Service) (h : s.is_connected = true) :
    connect s = s := by
  unfold connect
  rw [h]
  simp

/-- C3 amended witness: a connected state is left unchanged by connect. -/
theorem aprs_c3_amended_witness :
    connect ⟨1, true, false, true, true⟩ = ⟨1, true, false, true, true⟩ :=
  aprs_c3_amended_guard ⟨1, true, false, true, true⟩ rfl

/-- C6: evaluating the decoder on the weather line of the claim (and of
the repository fixture test_data.py, which pairs it with temperature 72
and humidity 50).  The data after the underscore marker holds no slash,
so the split yields a single part, the arity guard fails, and the
decoded weather payload is empty: temperature and humidity are absent,
contradicting the claim and the fixture. -/
theorem aprs_c6_empty_weather_payload :
    parse_packet ("N0WX-3>APZ001,WIDE2-1:_23844728c054s000g005t072r000p000P000b10020h50".toList) =
      ParseResult.ok
        ⟨"N0WX-3".toList, "_23844728c054s000g005t072r000p000P000b10020h50".toList,
         PacketType.weather, none, emptyWeatherData, none, none⟩
    ∧ emptyWeatherData.temperature = none
    ∧ emptyWeatherData.humidity = none := by decide

/-- C7 counterexample: on the message line of the claim there is no
closing brace after the opening one, so the source leaves the message
number as None; no decoded payload with message number 001 exists. -/
theorem aprs_c7_counterexample :
    ¬ ∃ m, parse_message (":TESTCALL :Hello\x7b001".toList) = some m
        ∧ m.message_number = some ("001".toList) := by
  intro h
  obtain ⟨m, hm, hn⟩ := h
  have hev : parse_message (":TESTCALL :Hello\x7b001".toList) =
      some ⟨"TESTCALL".toList, "Hello".toList, none, false⟩ := by decide
  rw [hev] at hm
  injection hm with hm
  rw [← hm] at hn
  exact Option.noConfusion hn

/-- C7 amended: the claim line decodes to addressee TESTCALL, message
Hello, message number None (a number is extracted only when a closing
brace follows; with the closing brace present the number is 001) and
isAck false; and for every decoded message payload, isAck holds exactly
when the stored (already stripped) message text lower-cases to ack. -/
theorem aprs_c7_amended_message_fields :
    parse_message (":TESTCALL :Hello\x7b001".toList) =
      some ⟨"TESTCALL".toList, "Hello".toList, none, false⟩
    ∧ parse_message (":TESTCALL :Hello\x7b001\x7d".toList) =
      some ⟨"TESTCALL".toList, "Hello".toList, some ("001".toList), false⟩
    ∧ ∀ info m, parse_message info = some m →
        (m.is_ack = true ↔ m.message.map Char.toLower = "ack".toList) := by
  refine ⟨by decide, by decide, ?_⟩
  intro info m h
  simp only [parse_message] at h
  split at h
  · exact Option.noConfusion h
  · split at h <;>
    · injection h with h
      subst h
      exact beq_iff_eq

/-- C7 amended witness: the isAck characterization applied to a concrete
decoded message whose text case-folds to ack. -/
theorem aprs_c7_amended_witness :
    parse_message (":A :AcK".toList) = some ⟨"A".toList, "AcK".toList, none, true⟩
    ∧ ("AcK".toList.map Char.toLower = "ack".toList) :=
  ⟨by decide,
   (aprs_c7_amended_message_fields.2.2 (":A :AcK".toList)
      ⟨"A".toList, "AcK".toList, none, true⟩ (by decide)).mp (by decide)⟩

/-- C8 counterexample: a line that fails structural validation yields the
error dictionary, and the processing stage then returns early: the
packet is neither appended to the persistence sink nor published on the
packets topic, contradicting the claim for unparseable lines. -/
theorem aprs_c8_counterexample :
    parse_packet ("hello world".toList) = ParseResult.err ("Invalid packet format".toList)
    ∧ (process_packet true ("hello world".toList)).packet_appended = false
    ∧ (process_packet true ("hello world".toList)).packet_update_sent = false := by decide

/-- C8 amended: every line that the decoder parses successfully, of any
variant, is appended to the persistence sink and published as a
packet_update on the packets topic (given an available channel layer);
lines that produce an error dictionary are logged and dropped. -/
theorem aprs_c8_amended_publish_all_parsed (raw : List Char) (p : ParsedPacket)
    (h : parse_packet raw = ParseResult.ok p) :
    (process_packet true raw).packet_appended = true
    ∧ (process_packet true raw).packet_update_sent = true := by
  unfold process_packet
  rw [h]
  exact ⟨rfl, rfl⟩

/-- C8 amended witness: a status-free line of the other variant is
appended and published. -/
theorem aprs_c8_amended_witness :
    (process_packet true ("A>B:hello".toList)).packet_appended = true
    ∧ (process_packet true ("A>B:hello".toList)).packet_update_sent = true :=
  aprs_c8_amended_publish_all_parsed ("A>B:hello".toList)
    ⟨"A".toList, "hello".toList, PacketType.other, none, emptyWeatherData, none, none⟩
    (by decide)

/-- C9: disconnect on a never-connected manager does not error (the
embedded function is total and the socket close is guarded), leaves the
manager not connected, changing nothing except the stop-request flag,
and disconnect is idempotent on every state. -/
theorem aprs_c9_disconnect_noop :
    disconnect initService = { initService with should_disconnect := true }
    ∧ (disconnect initService).is_connected = false
    ∧ ∀ s, disconnect (disconnect s) = disconnect s :=
  ⟨rfl, rfl, fun _ => rfl⟩

/-- C4: whenever the callsign is absent or empty, upper-cases to the
anonymous placeholder NOCALL, or the passcode is not an int greater than
zero, the connection worker rejects before any socket is created: it
broadcasts exactly one connection-status event with connected false and
an error text, and the session never reaches Connected, for every socket
environment and every handshake trace. -/
theorem aprs_c4_reject_invalid_credentials (u : UserSettings) (sockOk : Bool)
    (events : List RecvEvent)
    (h : u.callsign = none ∨ u.callsign = some []
       ∨ (∃ cs, u.callsign = some cs ∧ cs.map Char.toUpper = "NOCALL".toList)
       ∨ (∀ n, u.passcode ≠ PassVal.intV n)
       ∨ (∃ n, u.passcode = PassVal.intV n ∧ n ≤ 0)) :
    connection_worker u sockOk events =
      { socket_created := false, login_successful := false,
        reached_connected := false, statuses := [⟨false, some invalidCredsMsg⟩] } := by
  have hc : credentialsInvalid u = true := by
    unfold credentialsInvalid
    rcases h with h | h | ⟨cs, hcs, hup⟩ | h | ⟨n, hn, hle⟩
    · rw [h]
    · rw [h]
      rfl
    · rw [hcs]
      simp [hup]
    · cases hcall : u.callsign with
      | none => rfl
      | some cs =>
        cases hp : u.passcode with
        | intV n => exact absurd hp (h n)
        | strV s => simp
        | noneV => simp
    · cases hcall : u.callsign with
      | none => rfl
      | some cs =>
        rw [hn]
        simp [hle]
  unfold connection_worker
  rw [hc]
  rfl

/-- C4 witness: the placeholder callsign with a positive passcode is
rejected without a socket. -/
theorem aprs_c4_witness :
    connection_worker ⟨some ("NOCALL".toList), PassVal.intV 12345⟩ true [] =
      { socket_created := false, login_successful := false,
        reached_connected := false, statuses := [⟨false, some invalidCredsMsg⟩] } :=
  aprs_c4_reject_invalid_credentials _ _ _
    (Or.inr (Or.inr (Or.inl ⟨"NOCALL".toList, rfl, by decide⟩)))

/-- Helper: the response list accumulated by the handshake read loop
grows by at most the fuel. -/
theorem handshakeLoop_length_le (fuel : Nat) (events : List RecvEvent)
    (acc : List (List Char)) :
    (handshakeLoop fuel events acc).2.length ≤ acc.length + fuel := by
  induction fuel generalizing events acc with
  | zero => exact Nat.le_add_right _ _
  | succ f ih =>
    cases events with
    | nil => exact Nat.le_add_right _ _
    | cons e rest =>
      cases e with
      | timeout => exact Nat.le_add_right _ _
      | excp => exact Nat.le_add_right _ _
      | line s =>
        show (handshakeLoop (f + 1) (RecvEvent.line s :: rest) acc).2.length ≤ _
        simp only [handshakeLoop]
        split
        · show (acc ++ [pyStrip s]).length ≤ acc.length + (f + 1)
          simp only [List.length_append, List.length_cons, List.length_nil]
          omega
        · split
          · show (acc ++ [pyStrip s]).length ≤ acc.length + (f + 1)
            simp only [List.length_append, List.length_cons, List.length_nil]
            omega
          · split
            · show (acc ++ [pyStrip s]).length ≤ acc.length + (f + 1)
              simp only [List.length_append, List.length_cons, List.length_nil]
              omega
            · have hrec := ih rest (acc ++ [pyStrip s])
              simp only [List.length_append, List.length_cons, List.length_nil] at hrec
              omega

/-- Helper: once the loop has a nonempty accumulator or ends with one,
the overall handshake result is success. -/
theorem handshakeResult_true_of_ne_nil (events : List RecvEvent)
    (h : (handshakeResult events).2 ≠ []) : (handshakeResult events).1 = true := by
  unfold handshakeResult at *
  cases hr : handshakeLoop HANDSHAKE_MAX_READS events [] with
  | mk b rs =>
    rw [hr] at h
    cases b with
    | true => rfl
    | false =>
      cases rs with
      | nil => simp at h
      | cons a t => rfl

/-- C5: the login handshake reads at most HANDSHAKE_MAX_READS = 5
response chunks, each under a HANDSHAKE_TIMEOUT_SECONDS = 3 second
socket timeout; a first chunk whose lowercase text holds one of the
acknowledgment markers (verified, unverified, logresp, or the commented
logresp form) is immediate success; any run that recorded at least one
response chunk, in particular a non-empty one, is success even without a
marker; and a timeout before any response is a login failure with an
empty response list. -/
theorem aprs_c5_handshake :
    HANDSHAKE_MAX_READS = 5
    ∧ HANDSHAKE_TIMEOUT_SECONDS = 3
    ∧ (∀ events, (handshakeResult events).2.length ≤ HANDSHAKE_MAX_READS)
    ∧ (∀ s rest,
        (containsSub ("verified".toList) (s.map Char.toLower)
          || containsSub ("unverified".toList) (s.map Char.toLower)
          || containsSub ("logresp".toList) (s.map Char.toLower)
          || containsSub ("# logresp".toList) (s.map Char.toLower)) = true →
        handshakeResult (RecvEvent.line s :: rest) = (true, [pyStrip s]))
    ∧ (∀ events, (handshakeResult events).2 ≠ [] → (handshakeResult events).1 = true)
    ∧ (∀ events, (∃ r ∈ (handshakeResult events).2, r ≠ []) →
        (handshakeResult events).1 = true)
    ∧ (∀ rest, handshakeResult (RecvEvent.timeout :: rest) = (false, [])) := by
  refine ⟨rfl, rfl, ?_, ?_, handshakeResult_true_of_ne_nil, ?_, ?_⟩
  · intro events
    have h := handshakeLoop_length_le HANDSHAKE_MAX_READS events []
    unfold handshakeResult
    cases hr : handshakeLoop HANDSHAKE_MAX_READS events [] with
    | mk b rs =>
      rw [hr] at h
      simp at h
      cases b <;> cases rs <;> exact h
  · intro s rest h
    rw [Bool.or_eq_true, Bool.or_eq_true, Bool.or_eq_true] at h
    have hloop : handshakeLoop HANDSHAKE_MAX_READS (RecvEvent.line s :: rest) [] =
        (true, [pyStrip s]) := by
      show handshakeLoop (4 + 1) (RecvEvent.line s :: rest) [] = (true, [pyStrip s])
      simp only [handshakeLoop, List.nil_append]
      rcases h with ((hA | hB) | hC) | hD
      · simp only [hA, Bool.true_or, eq_self_iff_true, if_true]
      · simp only [hB, Bool.or_true, eq_self_iff_true, if_true]
      · simp only [hC, Bool.true_or, eq_self_iff_true, if_true, ite_self]
      · simp only [hD, Bool.or_true, eq_self_iff_true, if_true, ite_self]
    unfold handshakeResult
    rw [hloop]
    rfl
  · intro events ⟨r, hr, hne⟩
    exact handshakeResult_true_of_ne_nil events (by
      intro hnil
      rw [hnil] at hr
      exact List.not_mem_nil r hr)
  · intro rest
    rfl

/-- Helper: the position parser returns the empty dictionary whenever the
data after the marker is shorter than 19 characters or any of the four
coordinate substrings is not numeric. -/
theorem parse_position_none (info : List Char)
    (hhd : info.head? = some '!' ∨ info.head? = some '=')
    (hbad : (info.drop 1).length < 19
      ∨ pyFloat ((pySlice (info.drop 1) 0 8).take 2) = none
      ∨ pyFloat (pySlice (pySlice (info.drop 1) 0 8) 2 7) = none
      ∨ pyFloat ((pySlice (info.drop 1) 9 18).take 3) = none
      ∨ pyFloat (pySlice (pySlice (info.drop 1) 9 18) 3 8) = none) :
    parse_position info = none := by
  unfold parse_position
  rw [if_pos hhd]
  simp only []
  by_cases hlen : (info.drop 1).length < 19
  · rw [if_pos hlen]
  · rw [if_neg hlen]
    rcases hbad with hl | hf | hf | hf | hf
    · exact absurd hl hlen
    all_goals
      split
      · simp_all
      · rfl

/-- Helper: when the position parser succeeds, its latitude and
longitude come from the degree and minute substrings exactly as the
source computes them, with the sign flips for the southern and western
hemisphere letters. -/
theorem parse_position_coords (info : List Char) (pf : PosFields)
    (hhd : info.head? = some '!' ∨ info.head? = some '=')
    (hp : parse_position info = some pf) :
    ∃ latDeg latMin lonDeg lonMin,
      pyFloat ((pySlice (info.drop 1) 0 8).take 2) = some latDeg
      ∧ pyFloat (pySlice (pySlice (info.drop 1) 0 8) 2 7) = some latMin
      ∧ pyFloat ((pySlice (info.drop 1) 9 18).take 3) = some lonDeg
      ∧ pyFloat (pySlice (pySlice (info.drop 1) 9 18) 3 8) = some lonMin
      ∧ pf.latitude = (if (pySlice (info.drop 1) 0 8).getD 7 ' ' = 'S'
          then (latDeg.add (latMin.divN 60)).neg else latDeg.add (latMin.divN 60))
      ∧ pf.longitude = (if (pySlice (info.drop 1) 9 18).getD 8 ' ' = 'W'
          then (lonDeg.add (lonMin.divN 60)).neg else lonDeg.add (lonMin.divN 60)) := by
  unfold parse_position at hp
  rw [if_pos hhd] at hp
  simp only [] at hp
  by_cases hlen : (info.drop 1).length < 19
  · rw [if_pos hlen] at hp
    exact Option.noConfusion hp
  · rw [if_neg hlen] at hp
    split at hp
    · rename_i latDeg latMin lonDeg lonMin h1 h2 h3 h4
      injection hp with hp
      subst hp
      exact ⟨latDeg, latMin, lonDeg, lonMin, h1, h2, h3, h4, rfl, rfl⟩
    · exact Option.noConfusion hp

/-- C5 witness: a concrete marker line succeeds at once, and a timeout
with no response fails. -/
theorem aprs_c5_witness :
    handshakeResult [RecvEvent.line ("logresp KD8ABC verified".toList)] =
      (true, [pyStrip ("logresp KD8ABC verified".toList)])
    ∧ handshakeResult [RecvEvent.timeout] = (false, []) :=
  ⟨aprs_c5_handshake.2.2.2.1 ("logresp KD8ABC verified".toList) [] (by decide),
   aprs_c5_handshake.2.2.2.2.2.2 []⟩

/-- The position line of claim C2. -/
def kdLine : List Char := "KD8ABC-9>APZ001,WIDE1-1:=4042.77N/07400.36W>Test".toList

/-- Its info field. -/
def kdInfo : List Char := "=4042.77N/07400.36W>Test".toList

/-- The position payload the decoder produces for kdLine: latitude
40 + 42.77/60, longitude -(74 + 00.36/60). -/
def kdPos : PosFields :=
  ⟨PyFloat.finite (244277 / 6000), PyFloat.finite (-(444036 / 6000)), '/', '>',
   some ("Test".toList)⟩

/-- C10: a line framed correctly whose info field starts with the
position marker but whose data is shorter than 19 characters or has a
non-numeric coordinate substring (one rejected by the Python float
grammar; the data is required to be ASCII, since on ASCII text the
embedded grammar is exactly the one float() accepts) still decodes to a
packet of type position with an empty position payload (no latitude or
longitude), and the processing stage appends and publishes the packet
but performs no station upsert and sends no station update. -/
theorem aprs_c10_position_without_coords (raw header info : List Char)
    (hgt : raw.contains '>' = true)
    (hsp : pySplitOnce ':' raw = some (header, info))
    (hhd : info.head? = some '!' ∨ info.head? = some '=')
    (hascii : (info.drop 1).all (fun c => c.toNat ≤ 127) = true)
    (hbad : (info.drop 1).length < 19
      ∨ pyFloat ((pySlice (info.drop 1) 0 8).take 2) = none
      ∨ pyFloat (pySlice (pySlice (info.drop 1) 0 8) 2 7) = none
      ∨ pyFloat ((pySlice (info.drop 1) 9 18).take 3) = none
      ∨ pyFloat (pySlice (pySlice (info.drop 1) 9 18) 3 8) = none) :
    parse_packet raw =
      ParseResult.ok ⟨header.takeWhile (fun c => c ≠ '>'), info, PacketType.position, none,
        emptyWeatherData, none, none⟩
    ∧ process_packet true raw =
      ⟨false, true, true, false, false⟩ := by
  have hpos := parse_position_none info hhd hbad
  have hpp : parse_packet raw =
      ParseResult.ok ⟨header.takeWhile (fun c => c ≠ '>'), info, PacketType.position, none,
        emptyWeatherData, none, none⟩ := by
    unfold parse_packet
    rw [hgt, if_neg (by decide : ¬ (true = false)), hsp]
    simp only []
    rw [if_pos hhd, hpos]
  refine ⟨hpp, ?_⟩
  unfold process_packet
  rw [hpp]
  rfl

/-- C10 witness: a concrete too-short position line is decoded as a
position packet without coordinates, appended and published, with no
station update. -/
theorem aprs_c10_witness :
    parse_packet ("A>B:!short".toList) =
      ParseResult.ok ⟨"A".toList, "!short".toList, PacketType.position, none,
        emptyWeatherData, none, none⟩
    ∧ process_packet true ("A>B:!short".toList) = ⟨false, true, true, false, false⟩ :=
  aprs_c10_position_without_coords ("A>B:!short".toList) ("A>B".toList) ("!short".toList)
    (by decide) (by decide) (Or.inl (by decide)) (by decide) (Or.inl (by decide))

set_option maxRecDepth 4000 in
/-- C2: the known-good position line decodes to the position payload with
latitude within 1/1000 of 40.7128, longitude within 1/1000 of -74.0067,
symbol table slash, symbol code greater-than, and comment Test; and in
general a successful position decode takes its latitude from the first
two characters (degrees) plus the next five (minutes) over sixty of the
eight-character latitude slice, sign flipped when the hemisphere letter
at offset 7 is S, and its longitude likewise from the nine-character
longitude slice with W negative. -/
theorem aprs_c2_position_roundtrip :
    (parse_packet kdLine =
      ParseResult.ok ⟨"KD8ABC-9".toList, kdInfo, PacketType.position, some kdPos,
        emptyWeatherData, none, none⟩
      ∧ (∃ qlat, kdPos.latitude = PyFloat.finite qlat ∧ |qlat - 407128 / 10000| < 1 / 1000)
      ∧ (∃ qlon, kdPos.longitude = PyFloat.finite qlon
          ∧ |qlon - (-(740067 / 10000))| < 1 / 1000)
      ∧ kdPos.symbol_table = '/' ∧ kdPos.symbol_code = '>'
      ∧ kdPos.comment = some ("Test".toList))
    ∧ (∀ info pf, (info.head? = some '!' ∨ info.head? = some '=') →
        parse_position info = some pf →
        ∃ latDeg latMin lonDeg lonMin,
          pyFloat ((pySlice (info.drop 1) 0 8).take 2) = some latDeg
          ∧ pyFloat (pySlice (pySlice (info.drop 1) 0 8) 2 7) = some latMin
          ∧ pyFloat ((pySlice (info.drop 1) 9 18).take 3) = some lonDeg
          ∧ pyFloat (pySlice (pySlice (info.drop 1) 9 18) 3 8) = some lonMin
          ∧ pf.latitude = (if (pySlice (info.drop 1) 0 8).getD 7 ' ' = 'S'
              then (latDeg.add (latMin.divN 60)).neg else latDeg.add (latMin.divN 60))
          ∧ pf.longitude = (if (pySlice (info.drop 1) 9 18).getD 8 ' ' = 'W'
              then (lonDeg.add (lonMin.divN 60)).neg else lonDeg.add (lonMin.divN 60))) := by
  refine ⟨⟨?_, ⟨244277 / 6000, rfl, ?_⟩, ⟨-(444036 / 6000), rfl, ?_⟩, rfl, rfl, rfl⟩,
    parse_position_coords⟩
  · with_unfolding_all rfl
  · with_unfolding_all decide
  · with_unfolding_all decide

set_option maxRecDepth 4000 in
/-- C2 witness: the coordinate characterization applied to the concrete
info field of the claim line. -/
theorem aprs_c2_witness :
    ∃ latDeg latMin lonDeg lonMin,
      pyFloat ((pySlice (kdInfo.drop 1) 0 8).take 2) = some latDeg
      ∧ pyFloat (pySlice (pySlice (kdInfo.drop 1) 0 8) 2 7) = some latMin
      ∧ pyFloat ((pySlice (kdInfo.drop 1) 9 18).take 3) = some lonDeg
      ∧ pyFloat (pySlice (pySlice (kdInfo.drop 1) 9 18) 3 8) = some lonMin
      ∧ kdPos.latitude = (if (pySlice (kdInfo.drop 1) 0 8).getD 7 ' ' = 'S'
          then (latDeg.add (latMin.divN 60)).neg else latDeg.add (latMin.divN 60))
      ∧ kdPos.longitude = (if (pySlice (kdInfo.drop 1) 9 18).getD 8 ' ' = 'W'
          then (lonDeg.add (lonMin.divN 60)).neg else lonDeg.add (lonMin.divN 60)) :=
  aprs_c2_position_roundtrip.2 kdInfo kdPos (Or.inr (by decide))
    (by with_unfolding_all rfl)
